import Mathlib

/-!
Verification of the suspend/resume package of `susp.c`.

The package's shared state is the four globals `inited`, `bottom`,
`array` and `sentinel`.  Thread identifiers (`pthread_t`) are modelled
as natural numbers; `null_pthread = {0}` — the sentinel for an empty
registry slot — is modelled as `0`.  The allocated block behind
`array` is modelled as a `List Nat` whose length is the number of
allocated slots (`none` models a NULL pointer); in every state the
package itself produces, the block length equals `bottom` whenever the
pointer is non-NULL.

Each public operation is embedded as a pure function from the global
state (plus the outcomes of its fallible external calls) to a result
record.  The result record carries, besides the returned status and
the new global state, whether `pthread_kill` was invoked, the indices
of array reads and writes that fall outside the allocated block, and
whether a NULL array pointer was dereferenced.  Mutex lock/unlock and
`pthread_once` are modelled as always succeeding (status 0), which is
how every claim under study exercises them.  Successful delivery of
SIGUSR1 folds in the target's suspend handler run: the handler sets
`sentinel` to 1, which is what ends the caller's busy-wait loop.
-/

/-- The global variables of the suspend package (`susp.c` lines 36-40):
`inited`, `bottom`, `array` (the allocated block, `none` = NULL) and
`sentinel`. -/
structure SuspState where
  inited   : Bool
  bottom   : Nat
  arr      : Option (List Nat)
  sentinel : Nat
deriving Repr, DecidableEq

/-- Result of one call to `thd_suspend` or `thd_continue`: the returned
status, the global state afterwards, whether `pthread_kill` was invoked,
the indices of out-of-block array reads and writes, and whether a NULL
array pointer was dereferenced. -/
structure SuspResult where
  status     : Nat
  state      : SuspState
  signalSent : Bool
  oobRead    : List Nat
  oobWrite   : List Nat
  nullDeref  : Bool
deriving Repr, DecidableEq

/-- The empty-slot marker `null_pthread = {0}` (`susp.c` line 38). -/
def null_pthread : Nat := 0

/-- `errno` value reported when `realloc` fails. -/
def ENOMEM : Nat := 12

/-- The globals before any call: `inited = 0`, `bottom = 0`,
`array = NULL`, `sentinel = 0`. -/
def initialState : SuspState :=
  { inited := false, bottom := 0, arr := none, sentinel := 0 }

/-- `suspend_init_routine` (`susp.c` lines 81-115): sets `bottom = 10`,
allocates the registry with `calloc` (zero-filled, assumed to succeed)
and installs the two signal handlers (assumed to succeed, else the
process aborts); `sentinel` is untouched. -/
def suspend_init_routine (s : SuspState) : SuspState :=
  { s with inited := true, bottom := 10,
           arr := some (List.replicate 10 null_pthread) }

/-- One array-scan loop `while (array[i] != x) i++` advancing one slot
at a time: the first index of `l` holding `x`, or `l.length` when `x`
occupies no slot (the loop would read on past the block). -/
def scanIdx (l : List Nat) (x : Nat) : Nat :=
  match l with
  | [] => 0
  | a :: as => if a = x then 0 else scanIdx as x + 1

/-- Lines 178-197 of `thd_suspend`: clear the sentinel, deliver SIGUSR1
(`killStatus` is the `pthread_kill` return; nonzero aborts the call with
the registry block `l` unchanged), busy-wait until the target's suspend
handler has set the sentinel, then record the target at slot `i`. -/
def suspendDeliver (killStatus : Nat) (s : SuspState) (l : List Nat)
    (i : Nat) (target : Nat) (oobR oobW : List Nat) : SuspResult :=
  if killStatus ≠ 0 then
    { status := killStatus, state := { s with sentinel := 0 },
      signalSent := true, oobRead := oobR, oobWrite := oobW,
      nullDeref := false }
  else
    { status := 0,
      state := { s with sentinel := 1, arr := some (l.set i target) },
      signalSent := true, oobRead := oobR,
      oobWrite := if i < l.length then oobW else oobW ++ [i],
      nullDeref := false }

/-- Shallow embedding of `thd_suspend` (`susp.c` lines 125-198).
`killStatus` is the return of `pthread_kill(target, SIGUSR1)`;
`allocOk` tells whether `realloc` succeeds; `reallocFill` is the
indeterminate content `realloc` leaves in a newly added slot (it is
not cleared: line 175 writes `array[bottom]` after `bottom` was
already incremented, one slot past the new block).  The first scan
(lines 152-156) checks slots `0..bottom-1` for `target`; the second
scan (lines 163-165) walks to the first empty slot with no bound
test, so when every slot is occupied its terminating read falls at
index `l.length`, one past the block.  On `realloc` failure the code
has already executed `++bottom` and has overwritten `array` with
NULL, and returns `errno`. -/
def thd_suspend (killStatus : Nat) (allocOk : Bool) (reallocFill : Nat)
    (s : SuspState) (target : Nat) : SuspResult :=
  let s1 := if s.inited = true then s else suspend_init_routine s
  match s1.arr with
  | none =>
      { status := 0, state := s1, signalSent := false,
        oobRead := [], oobWrite := [], nullDeref := true }
  | some l =>
      if target ∈ l.take s1.bottom then
        { status := 0, state := s1, signalSent := false,
          oobRead := [], oobWrite := [], nullDeref := false }
      else
        let i := scanIdx l null_pthread
        let oobR := if i = l.length then [l.length] else []
        if i = s1.bottom then
          if allocOk then
            suspendDeliver killStatus
              { s1 with bottom := s1.bottom + 1,
                        arr := some (l ++ [reallocFill]) }
              (l ++ [reallocFill]) i target oobR [s1.bottom + 1]
          else
            { status := ENOMEM,
              state := { s1 with bottom := s1.bottom + 1, arr := none },
              signalSent := false, oobRead := oobR, oobWrite := [],
              nullDeref := false }
        else
          suspendDeliver killStatus s1 l i target oobR []

/-- Shallow embedding of `thd_continue` (`susp.c` lines 205-253).
`killStatus` is the return of `pthread_kill(target, SIGUSR2)`.  If the
package was never initialized the call returns at once.  The scan
`while (array[i] != target_thread && i < bottom) i++` (line 232) reads
`array[i]` before testing the bound, so when `target` occupies no slot
the final test reads `array[bottom]`, one past the block; the loop
still stops there and the call returns 0.  Otherwise SIGUSR2 is
delivered; a nonzero delivery status is returned with the registry
unchanged, and on success the target's slot is cleared. -/
def thd_continue (killStatus : Nat) (s : SuspState) (target : Nat) :
    SuspResult :=
  if s.inited = false then
    { status := 0, state := s, signalSent := false,
      oobRead := [], oobWrite := [], nullDeref := false }
  else
    match s.arr with
    | none =>
        { status := 0, state := s, signalSent := false,
          oobRead := [], oobWrite := [], nullDeref := true }
    | some l =>
        let i := scanIdx (l.take s.bottom) target
        if i ≥ s.bottom then
          { status := 0, state := s, signalSent := false,
            oobRead := [s.bottom], oobWrite := [], nullDeref := false }
        else if killStatus ≠ 0 then
          { status := killStatus, state := s, signalSent := true,
            oobRead := [], oobWrite := [], nullDeref := false }
        else
          { status := 0,
            state := { s with arr := some (l.set i null_pthread) },
            signalSent := true, oobRead := [], oobWrite := [],
            nullDeref := false }

/-- A registry filled to capacity: the state after initialization and
ten successful suspensions of threads 1..10. -/
def sFull : SuspState :=
  { inited := true, bottom := 10,
    arr := some [1, 2, 3, 4, 5, 6, 7, 8, 9, 10], sentinel := 1 }

/-- A freshly initialized registry: ten empty slots, no thread
suspended. -/
def sFresh : SuspState :=
  { inited := true, bottom := 10,
    arr := some (List.replicate 10 null_pthread), sentinel := 0 }

/-- The state reached from `initialState` by ten successful
`thd_suspend` calls for threads 1..10. -/
def fillRun : SuspState :=
  (List.range 10).foldl
    (fun st t => (thd_suspend 0 true 0 st (t + 1)).state) initialState

theorem scanIdx_le_length (l : List Nat) (x : Nat) :
    scanIdx l x ≤ l.length := by
  induction l with
  | nil => simp [scanIdx]
  | cons a as ih =>
      by_cases h : a = x
      · simp [scanIdx, h]
      · simp only [scanIdx, if_neg h, List.length_cons]
        omega

theorem scanIdx_lt_length_of_mem {l : List Nat} {x : Nat} (h : x ∈ l) :
    scanIdx l x < l.length := by
  induction l with
  | nil => cases h
  | cons a as ih =>
      by_cases hax : a = x
      · simp [scanIdx, hax]
      · have hx : x ∈ as := by
          rcases List.mem_cons.mp h with h1 | h2
          · exact absurd h1.symm hax
          · exact h2
        have := ih hx
        simp only [scanIdx, if_neg hax, List.length_cons]
        omega

theorem scanIdx_eq_length_of_not_mem {l : List Nat} {x : Nat} (h : x ∉ l) :
    scanIdx l x = l.length := by
  induction l with
  | nil => rfl
  | cons a as ih =>
      have hax : ¬ a = x := by
        intro e
        rw [← e] at h
        exact h (List.mem_cons_self a as)
      have hx : x ∉ as := fun hx => h (List.mem_cons_of_mem a hx)
      simp only [scanIdx, if_neg hax, List.length_cons, ih hx]

theorem getElem?_scanIdx_of_mem {l : List Nat} {x : Nat} (h : x ∈ l) :
    l[scanIdx l x]? = some x := by
  induction l with
  | nil => cases h
  | cons a as ih =>
      by_cases hax : a = x
      · simp [scanIdx, hax]
      · have hx : x ∈ as := by
          rcases List.mem_cons.mp h with h1 | h2
          · exact absurd h1.symm hax
          · exact h2
        simp [scanIdx, hax, ih hx]

theorem take_of_length_eq {l : List Nat} {n : Nat} (h : l.length = n) :
    l.take n = l := by
  subst h
  exact l.take_length

/-- Claim C1: suspend is idempotent.  For every thread identifier
`target` already recorded in the registry, `thd_suspend` returns
success (0) without invoking `pthread_kill` and with the globals —
registry contents, capacity `bottom` and `sentinel` — exactly as
before, whatever the outcomes of the external calls would have been;
so a second call adds nothing to the effect of the first. -/
theorem c1_suspend_idempotent (k : Nat) (a : Bool) (g : Nat)
    (s : SuspState) (target : Nat) (l : List Nat)
    (hin : s.inited = true) (harr : s.arr = some l)
    (hlen : l.length = s.bottom) (hmem : target ∈ l) :
    thd_suspend k a g s target =
      { status := 0, state := s, signalSent := false,
        oobRead := [], oobWrite := [], nullDeref := false } := by
  have htake : l.take s.bottom = l := take_of_length_eq hlen
  simp [thd_suspend, hin, harr, htake, hmem]

/-- Witness for C1: with the full registry `sFull`, suspending the
already-recorded thread 3 is a no-op returning success. -/
theorem c1_suspend_idempotent_witness :
    thd_suspend 7 false 5 sFull 3 =
      { status := 0, state := sFull, signalSent := false,
        oobRead := [], oobWrite := [], nullDeref := false } :=
  c1_suspend_idempotent 7 false 5 sFull 3 [1, 2, 3, 4, 5, 6, 7, 8, 9, 10]
    rfl rfl (by decide) (by decide)

/-- Claim C2 (evaluation at the failing input): with the registry full
(`sFull`, `bottom = 10`, slots 1..10), `thd_suspend 11` makes the
empty-slot scan read index 10 — equal to `bottom`, one past the block,
not below it (`oobRead = [10]`); the growth and the recording of the
new thread do then happen (capacity 11, previous slots preserved,
thread 11 recorded in the new slot). -/
theorem c2_full_scan_reads_index_bottom :
    sFull.bottom = 10 ∧
    thd_suspend 0 true 0 sFull 11 =
      { status := 0,
        state := { inited := true, bottom := 11,
                   arr := some [1, 2, 3, 4, 5, 6, 7, 8, 9, 10, 11],
                   sentinel := 1 },
        signalSent := true, oobRead := [10], oobWrite := [11],
        nullDeref := false } := by
  decide

/-- Claim C3 (evaluation at the failing input): with the registry full,
a `thd_suspend` whose `realloc` fails does return a nonzero error
(`errno`), but the registry is not left in its prior valid state: the
capacity `bottom` has been incremented to 11 and the array pointer is
NULL (the old block was lost by `array = realloc(array, ...)`). -/
theorem c3_realloc_failure_corrupts_registry :
    thd_suspend 0 false 0 sFull 11 =
      { status := ENOMEM,
        state := { inited := true, bottom := 11, arr := none,
                   sentinel := 1 },
        signalSent := false, oobRead := [10], oobWrite := [],
        nullDeref := false } ∧
    ENOMEM ≠ 0 := by
  decide

/-- Claim C5 (evaluation at the failing input): on a freshly
initialized registry (`bottom = 10`, all slots empty), `thd_continue`
of the never-suspended thread 42 completes with success and no state
change, but its scan reads index 10 — equal to `bottom`, one past the
block — because the loop reads `array[i]` before testing `i < bottom`. -/
theorem c5_continue_scan_reads_index_bottom :
    sFresh.bottom = 10 ∧
    thd_continue 0 sFresh 42 =
      { status := 0, state := sFresh, signalSent := false,
        oobRead := [10], oobWrite := [], nullDeref := false } := by
  decide

/-- Claim C8 (evaluation at the failing input): starting from the
uninitialized state, ten successful suspends of threads 1..10 fill the
registry; an eleventh suspend whose `realloc` succeeds but leaves the
value 1 in the uncleared new slot and whose `pthread_kill` fails leaves
a reachable state in which thread identifier 1 occupies two slots
(indices 0 and 10), violating registry uniqueness. -/
theorem c8_abandoned_growth_duplicates_entry :
    fillRun = { inited := true, bottom := 10,
                arr := some [1, 2, 3, 4, 5, 6, 7, 8, 9, 10],
                sentinel := 1 } ∧
    (thd_suspend 5 true 1 fillRun 11).state.arr =
      some [1, 2, 3, 4, 5, 6, 7, 8, 9, 10, 1] ∧
    [1, 2, 3, 4, 5, 6, 7, 8, 9, 10, 1].count 1 = 2 := by
  decide

/-- Claim C4: resuming a thread that occupies no registry slot is a
successful no-op.  If the package was never initialized,
`thd_continue` returns success immediately with nothing changed; and
for any registered state whose block does not hold `target`,
`thd_continue` returns 0, invokes no `pthread_kill`, and leaves the
globals exactly as they were. -/
theorem c4_continue_unregistered_noop (k : Nat) (s : SuspState)
    (target : Nat) :
    (s.inited = false →
      thd_continue k s target =
        { status := 0, state := s, signalSent := false,
          oobRead := [], oobWrite := [], nullDeref := false }) ∧
    (∀ l, s.arr = some l → l.length = s.bottom → target ∉ l →
      (thd_continue k s target).status = 0 ∧
      (thd_continue k s target).state = s ∧
      (thd_continue k s target).signalSent = false) := by
  constructor
  · intro hni
    simp [thd_continue, hni]
  · intro l harr hlen hmem
    cases hin : s.inited with
    | false => simp [thd_continue, hin]
    | true =>
        have htake : l.take s.bottom = l := take_of_length_eq hlen
        have hscan : scanIdx l target = l.length :=
          scanIdx_eq_length_of_not_mem hmem
        simp [thd_continue, hin, harr, htake, hscan, hlen]

/-- Witness for C4: on a freshly initialized registry, resuming the
never-suspended thread 42 returns success, sends no signal, and
changes nothing. -/
theorem c4_continue_unregistered_noop_witness :
    (thd_continue 4 sFresh 42).status = 0 ∧
    (thd_continue 4 sFresh 42).state = sFresh ∧
    (thd_continue 4 sFresh 42).signalSent = false :=
  (c4_continue_unregistered_noop 4 sFresh 42).2
    (List.replicate 10 null_pthread) rfl (by decide) (by decide)

/-- Counterexample to claim C6 as stated: with the registry full, a
`thd_suspend` whose `realloc` succeeds but whose `pthread_kill` fails
returns the delivery error, yet the registry is not left unmodified —
its capacity `bottom` has changed (grown from 10 to 11). -/
theorem c6_counterexample :
    (thd_suspend 5 true 7 sFull 11).status = 5 ∧
    (thd_suspend 5 true 7 sFull 11).state.bottom ≠ sFull.bottom := by
  decide

/-- Claim C6 as amended: if delivering the suspend signal fails,
`thd_suspend` returns the underlying error and records the target in
no previously existing slot, leaving every previously existing slot
unchanged; the capacity is unchanged whenever an empty slot existed,
but when the registry was full the one-slot growth already performed
persists — the capacity has grown by one and the new slot holds the
indeterminate content `realloc` left in it. -/
theorem c6_suspend_delivery_failure_state (k g : Nat) (s : SuspState)
    (target : Nat) (l : List Nat)
    (hin : s.inited = true) (harr : s.arr = some l)
    (hlen : l.length = s.bottom) (hmem : target ∉ l) (hk : k ≠ 0) :
    (thd_suspend k true g s target).status = k ∧
    (thd_suspend k true g s target).signalSent = true ∧
    (null_pthread ∈ l →
      (thd_suspend k true g s target).state = { s with sentinel := 0 }) ∧
    (null_pthread ∉ l →
      (thd_suspend k true g s target).state =
        { s with bottom := s.bottom + 1, arr := some (l ++ [g]),
                 sentinel := 0 }) := by
  have htake : l.take s.bottom = l := take_of_length_eq hlen
  by_cases h0 : null_pthread ∈ l
  · have hlt : scanIdx l null_pthread < l.length :=
      scanIdx_lt_length_of_mem h0
    have hne : ¬ scanIdx l null_pthread = s.bottom := by omega
    refine ⟨?_, ?_, ?_, fun hno => absurd h0 hno⟩ <;>
      simp [thd_suspend, suspendDeliver, hin, harr, htake, hmem, hne, hk]
  · have hsc : scanIdx l null_pthread = l.length :=
      scanIdx_eq_length_of_not_mem h0
    have heq : scanIdx l null_pthread = s.bottom := by omega
    refine ⟨?_, ?_, fun h0' => absurd h0' h0, ?_⟩ <;>
      simp [thd_suspend, suspendDeliver, hin, harr, htake, hmem, heq,
            hlen, hk]

/-- Witness for the amended C6: on the full registry, a suspend of
thread 11 with failing delivery (status 5) returns 5 and leaves the
grown registry with its garbage slot. -/
theorem c6_suspend_delivery_failure_state_witness :
    (thd_suspend 5 true 7 sFull 11).status = 5 ∧
    (thd_suspend 5 true 7 sFull 11).state =
      { inited := true, bottom := 11,
        arr := some [1, 2, 3, 4, 5, 6, 7, 8, 9, 10, 7],
        sentinel := 0 } := by
  have h := c6_suspend_delivery_failure_state 5 7 sFull 11
    [1, 2, 3, 4, 5, 6, 7, 8, 9, 10] rfl rfl (by decide) (by decide)
    (by decide)
  exact ⟨h.1, (h.2.2.2 (by decide)).trans (by decide)⟩

/-- Claim C7: if delivering the resume signal fails, `thd_continue`
returns the underlying error with the globals untouched; the target's
slot (the first slot holding it) still holds the target, so a retry
with successful delivery returns 0, sends the signal, and clears
exactly that slot. -/
theorem c7_continue_delivery_failure_keeps_entry (k : Nat)
    (s : SuspState) (target : Nat) (l : List Nat)
    (hin : s.inited = true) (harr : s.arr = some l)
    (hlen : l.length = s.bottom) (hmem : target ∈ l) (hk : k ≠ 0) :
    thd_continue k s target =
      { status := k, state := s, signalSent := true,
        oobRead := [], oobWrite := [], nullDeref := false } ∧
    l[scanIdx l target]? = some target ∧
    (thd_continue 0 s target).status = 0 ∧
    (thd_continue 0 s target).state =
      { s with arr := some (l.set (scanIdx l target) null_pthread) } ∧
    (thd_continue 0 s target).signalSent = true := by
  have htake : l.take s.bottom = l := take_of_length_eq hlen
  have hlt : scanIdx l target < l.length := scanIdx_lt_length_of_mem hmem
  have hge : ¬ scanIdx l target ≥ s.bottom := by omega
  refine ⟨?_, getElem?_scanIdx_of_mem hmem, ?_, ?_, ?_⟩ <;>
    simp [thd_continue, hin, harr, htake, hge, hk]

/-- Witness for C7: on the full registry, resuming thread 4 with a
failing delivery (status 9) returns 9 and changes nothing; the retry
with successful delivery clears slot 3. -/
theorem c7_continue_delivery_failure_keeps_entry_witness :
    thd_continue 9 sFull 4 =
      { status := 9, state := sFull, signalSent := true,
        oobRead := [], oobWrite := [], nullDeref := false } ∧
    (thd_continue 0 sFull 4).state =
      { inited := true, bottom := 10,
        arr := some [1, 2, 3, 0, 5, 6, 7, 8, 9, 10], sentinel := 1 } := by
  have h := c7_continue_delivery_failure_keeps_entry 9 sFull 4
    [1, 2, 3, 4, 5, 6, 7, 8, 9, 10] rfl rfl (by decide) (by decide)
    (by decide)
  exact ⟨h.1, (h.2.2.2.1).trans (by decide)⟩

/-- Claim C9: when the registry is full, the growth path of
`thd_suspend` grows the capacity by exactly one (`bottom + 1`), and
the clearing write of line 175 lands at index `bottom + 1` — equal to
the new block length `(l ++ [g]).length`, one slot past the new
logical size — so the newly added last valid slot (index `bottom`) is
left holding the indeterminate content `g` that `realloc` put there,
as the post-state shows whenever no later record write overwrites it. -/
theorem c9_growth_clear_writes_one_past_new_slot (k g : Nat)
    (s : SuspState) (target : Nat) (l : List Nat)
    (hin : s.inited = true) (harr : s.arr = some l)
    (hlen : l.length = s.bottom) (hmem : target ∉ l)
    (hfull : null_pthread ∉ l) :
    (thd_suspend k true g s target).state.bottom = s.bottom + 1 ∧
    (l ++ [g]).length = s.bottom + 1 ∧
    (thd_suspend k true g s target).oobWrite = [s.bottom + 1] ∧
    (k ≠ 0 →
      (thd_suspend k true g s target).state.arr = some (l ++ [g])) := by
  have htake : l.take s.bottom = l := take_of_length_eq hlen
  have hsc : scanIdx l null_pthread = l.length :=
    scanIdx_eq_length_of_not_mem hfull
  have heq : scanIdx l null_pthread = s.bottom := by omega
  by_cases hk : k = 0
  · refine ⟨?_, ?_, ?_, fun h => absurd hk h⟩ <;>
      simp [thd_suspend, suspendDeliver, hin, harr, htake, hmem, heq,
            hlen, hk]
  · refine ⟨?_, ?_, ?_, fun _ => ?_⟩ <;>
      simp [thd_suspend, suspendDeliver, hin, harr, htake, hmem, heq,
            hlen, hk]

/-- Witness for C9: suspending thread 11 on the full registry with
failing delivery shows the capacity grown to 11, the clearing write at
index 11 (the new block length), and the new slot still holding the
indeterminate value 7. -/
theorem c9_growth_clear_writes_one_past_new_slot_witness :
    (thd_suspend 5 true 7 sFull 11).state.bottom = 11 ∧
    (thd_suspend 5 true 7 sFull 11).oobWrite = [11] ∧
    (thd_suspend 5 true 7 sFull 11).state.arr =
      some [1, 2, 3, 4, 5, 6, 7, 8, 9, 10, 7] := by
  have h := c9_growth_clear_writes_one_past_new_slot 5 7 sFull 11
    [1, 2, 3, 4, 5, 6, 7, 8, 9, 10] rfl rfl (by decide) (by decide)
    (by decide)
  exact ⟨h.1, h.2.2.1, (h.2.2.2 (by decide)).trans (by decide)⟩

/-- Claim C10 (frame of `thd_continue`): on every call, whatever the
state and the delivery outcome, `thd_continue` never changes the
capacity, the initialization flag, or the sentinel; its registry block
either stays exactly as it was, or — only when delivery succeeded
(`killStatus = 0`, signal sent) — exactly the first slot holding the
target (an in-bounds index below `bottom`) is set to the empty value,
every other slot keeping its content; the block never grows. -/
theorem c10_continue_frame (k : Nat) (s : SuspState) (target : Nat) :
    (thd_continue k s target).state.bottom = s.bottom ∧
    (thd_continue k s target).state.inited = s.inited ∧
    (thd_continue k s target).state.sentinel = s.sentinel ∧
    ((thd_continue k s target).state.arr = s.arr ∨
      (k = 0 ∧ (thd_continue k s target).signalSent = true ∧
        ∃ l, s.arr = some l ∧
          scanIdx (l.take s.bottom) target < s.bottom ∧
          (thd_continue k s target).state.arr =
            some (l.set (scanIdx (l.take s.bottom) target)
              null_pthread))) := by
  cases hin : s.inited with
  | false => simp [thd_continue, hin]
  | true =>
      cases harr : s.arr with
      | none => simp [thd_continue, hin, harr]
      | some l =>
          by_cases hge : scanIdx (l.take s.bottom) target ≥ s.bottom
          · simp [thd_continue, hin, harr, hge]
          · by_cases hk : k = 0
            · refine ⟨?_, ?_, ?_,
                Or.inr ⟨hk, ?_, l, rfl, by omega, ?_⟩⟩ <;>
                simp [thd_continue, hin, harr, hge, hk]
            · simp [thd_continue, hin, harr, hge, hk]
